import Mathlib

namespace Erg

/-!
Verification of the erg workflow daemon against its specification.

The development shallowly embeds the parts of the program the claims
touch: the merge-automation checks of the worker package, the issue
providers (Asana, Linear), the Mermaid workflow-diagram generator, and
the XDG path-resolution cache.  External effects (environment
variables, HTTP responses, the `gh` CLI) are passed in as explicit
arguments, so every definition is executable.
-/

/-! ## Merge automation (worker package)

The worker package itself is not part of the sources at hand; only its
tests are.  The definitions below are therefore modelled from the
specification and the observable contract in auto_merge_test.go. -/

/-- Modelled from the spec: the worker package's MergeAction tri-state
polling result.  auto_merge_test.go pins Continue = 0, Stop = 1,
Proceed = 2. -/
inductive MergeAction
  | Continue
  | Stop
  | Proceed
deriving DecidableEq

/-- Numeric values of the MergeAction constants, as asserted by
TestMergeActionConstants. -/
def MergeAction.toNat : MergeAction → Nat
  | .Continue => 0
  | .Stop => 1
  | .Proceed => 2

/-- The session fields the merge-automation checks read and write,
following config.Session as used in auto_merge_test.go. -/
structure Session where
  id : String
  repoPath : String
  branch : String
  prMerged : Bool
  prCommentsAddressedCount : Nat
deriving DecidableEq

/-- Modelled from the spec: the externally observed review decision
(approved / changes-requested / none); a failed query maps to the
undetermined decision. -/
inductive ReviewDecision
  | approved
  | changesRequested
  | undetermined
deriving DecidableEq

/-- Modelled from the spec: the maximum attempt threshold for review
polling (reference value 120). -/
def maxReviewAttempts : Nat := 120

/-- Modelled from the spec: worker.CheckReviewApproval.  At or beyond
the maximum attempt threshold it stops regardless of the decision; an
undetermined decision below the threshold keeps polling.  The spec
leaves the below-threshold approved/changes-requested branches to the
workflow wiring; they are chosen here as Proceed/Continue and no claim
depends on them. -/
def CheckReviewApproval (decision : ReviewDecision) (attempt : Nat) : MergeAction :=
  if maxReviewAttempts ≤ attempt then .Stop
  else
    match decision with
    | .approved => .Proceed
    | .changesRequested => .Continue
    | .undetermined => .Continue

/-- Modelled from the spec: worker.DoMerge.  `mergeOk` abstracts the
external merge action (gh pr merge).  On success the session is marked
merged and the check proceeds; on external error it stops and the
session is returned unchanged. -/
def DoMerge (s : Session) (mergeOk : Bool) : MergeAction × Session :=
  if mergeOk then (.Proceed, { s with prMerged := true })
  else (.Stop, s)

/-- Modelled from the spec: the externally observed CI status for the
session's pull request; `unparseable` stands for an unparseable or
empty status result. -/
inductive CIStatus
  | passing
  | pending
  | failure
  | unparseable
deriving DecidableEq

/-- Modelled from the spec: worker.CheckCIAndMerge.  FAILURE stops,
PENDING continues, PASSING or an unparseable/empty result (permissive
default) delegates to DoMerge. -/
def CheckCIAndMerge (s : Session) (attempt : Nat) (ci : CIStatus) (mergeOk : Bool) :
    MergeAction × Session :=
  match ci with
  | .failure => (.Stop, s)
  | .pending => (.Continue, s)
  | .passing => DoMerge s mergeOk
  | .unparseable => DoMerge s mergeOk

/-- Modelled from the spec: worker.CheckAndAddressComments.  `query` is
`none` when the underlying PR-comment query fails and `some n` when it
reports `n` review comments in total; on query failure the check fails
open and proceeds. -/
def CheckAndAddressComments (s : Session) (attempt : Nat) (query : Option Nat) : MergeAction :=
  match query with
  | none => .Proceed
  | some total =>
    if s.prCommentsAddressedCount < total then .Continue else .Proceed

/-- A concrete session record used by the witnesses, mirroring the
sessions built by testSession in auto_merge_test.go. -/
def sampleSession : Session :=
  { id := "merge-test-1", repoPath := "/test/repo", branch := "feature-x",
    prMerged := false, prCommentsAddressedCount := 0 }

/-! ## Issue providers (internal/issues)

Embedded from asana.go and linear.go.  Environment-variable reads and
decoded HTTP responses are explicit arguments. -/

/-- ASCII case folding of one character; models the per-character
behaviour of Go's strings.ToLower / strings.EqualFold on the ASCII
range the providers' tags, labels and identifiers use. -/
def lowerChar : Char → Char
  | 'A' => 'a' | 'B' => 'b' | 'C' => 'c' | 'D' => 'd' | 'E' => 'e'
  | 'F' => 'f' | 'G' => 'g' | 'H' => 'h' | 'I' => 'i' | 'J' => 'j'
  | 'K' => 'k' | 'L' => 'l' | 'M' => 'm' | 'N' => 'n' | 'O' => 'o'
  | 'P' => 'p' | 'Q' => 'q' | 'R' => 'r' | 'S' => 's' | 'T' => 't'
  | 'U' => 'u' | 'V' => 'v' | 'W' => 'w' | 'X' => 'x' | 'Y' => 'y'
  | 'Z' => 'z'
  | c => c

/-- Go strings.ToLower, modelled as character-wise ASCII folding. -/
def toLowerStr (s : String) : String := ⟨s.data.map lowerChar⟩

/-- Go strings.EqualFold, modelled as equality after ASCII case
folding. -/
def eqFold (a b : String) : Bool := toLowerStr a == toLowerStr b

/-- Provider source tag (issues package). -/
inductive Source
  | github
  | asana
  | linear
deriving DecidableEq

/-- issues.Issue: external work item. -/
structure Issue where
  id : String
  title : String
  body : String
  url : String
  source : Source
deriving DecidableEq

/-- issues.FilterConfig: provider-agnostic query parameters. -/
structure FilterConfig where
  label : String
  project : String
  team : String
deriving DecidableEq

/-- asanaTag (asana.go): a tag on an Asana task. -/
structure AsanaTag where
  name : String
deriving DecidableEq

/-- asanaTask (asana.go): one task from the Asana API response. -/
structure AsanaTask where
  gid : String
  name : String
  notes : String
  permalink : String
  tags : List AsanaTag
deriving DecidableEq

/-- The client-side tag filter of AsanaProvider.FetchIssues
(asana.go lines 129-141).  The Go loop appends a task on its first
matching tag and breaks, which is exactly an order-preserving filter
by "some tag matches case-insensitively". -/
def asanaFilterTasks (tasks : List AsanaTask) (label : String) : List AsanaTask :=
  if label = "" then tasks
  else tasks.filter (fun task => task.tags.any (fun tag => eqFold tag.name label))

/-- The task-to-issue conversion of AsanaProvider.FetchIssues
(asana.go lines 143-152). -/
def asanaTaskToIssue (task : AsanaTask) : Issue :=
  { id := task.gid, title := task.name, body := task.notes,
    url := task.permalink, source := .asana }

/-- AsanaProvider.FetchIssues (asana.go lines 87-155).  `pat` is the
value of the ASANA_PAT environment variable and `resp` the decoded
task list of a successful HTTP response. -/
def asanaFetchIssues (pat : String) (filter : FilterConfig) (resp : List AsanaTask) :
    Except String (List Issue) :=
  if pat = "" then .error "ASANA_PAT environment variable not set"
  else if filter.project = "" then
    .error "Asana project GID not configured for this repository"
  else .ok ((asanaFilterTasks resp filter.label).map asanaTaskToIssue)

/-- AsanaProvider.IsConfigured (asana.go lines 159-166); `hasProject`
abstracts config.HasAsanaProject(repoPath). -/
def asanaIsConfigured (pat : String) (hasProject : Bool) : Bool :=
  if pat = "" then false else hasProject

/-- One issue as stored by the Linear backend, with the fields the
GraphQL filter of linear.go inspects (label names, workflow-state
type) and the fields the query selects. -/
structure LinearAPIIssue where
  id : String
  identifier : String
  title : String
  description : String
  url : String
  labels : List String
  stateType : String
deriving DecidableEq

/-- The state filter of both GraphQL queries in
LinearProvider.FetchIssues: state type not in [completed, canceled]. -/
def linearOpen (i : LinearAPIIssue) : Bool :=
  !(i.stateType == "completed" || i.stateType == "canceled")

/-- Modelled from the spec and the GraphQL queries built in
LinearProvider.FetchIssues (linear.go lines 120-157): the nodes the
Linear server returns.  With a label the query adds
labels.name.eqIgnoreCase, so only issues bearing a case-insensitively
matching label are returned; without one, all open issues are. -/
def linearServerNodes (all : List LinearAPIIssue) (label : String) : List LinearAPIIssue :=
  if label = "" then all.filter linearOpen
  else all.filter (fun i => linearOpen i && i.labels.any (fun nm => eqFold nm label))

/-- The node-to-issue conversion of LinearProvider.FetchIssues
(linear.go lines 196-208). -/
def linearIssueToIssue (i : LinearAPIIssue) : Issue :=
  { id := i.identifier, title := i.title, body := i.description,
    url := i.url, source := .linear }

/-- LinearProvider.FetchIssues (linear.go lines 109-209).  `apiKey` is
the value of the LINEAR_API_KEY environment variable and `all` the
issues stored at the server for the team. -/
def linearFetchIssues (apiKey : String) (filter : FilterConfig) (all : List LinearAPIIssue) :
    Except String (List Issue) :=
  if apiKey = "" then .error "LINEAR_API_KEY environment variable not set"
  else if filter.team = "" then
    .error "Linear team ID not configured for this repository"
  else .ok ((linearServerNodes all filter.label).map linearIssueToIssue)

/-- LinearProvider.IsConfigured (linear.go lines 213-218); `hasTeam`
abstracts config.HasLinearTeam(repoPath). -/
def linearIsConfigured (apiKey : String) (hasTeam : Bool) : Bool :=
  if apiKey = "" then false else hasTeam

/-- An Asana task carrying the tag "Queued", as in the case-insensitive
filtering test of the label-filtering plan. -/
def sampleQueuedTask : AsanaTask :=
  { gid := "1001", name := "Fix bug", notes := "", permalink := "",
    tags := [{ name := "Queued" }] }

/-- An Asana task without tags. -/
def sampleUntaggedTask : AsanaTask :=
  { gid := "1002", name := "Other", notes := "", permalink := "", tags := [] }

/-! ## Branch-name generation (asana.go, linear.go) -/

/-- The characters the slug regex of asana.go keeps: `[^a-z0-9]+`
replaces every run of characters outside this set. -/
def isSlugChar (c : Char) : Bool :=
  (decide ('a' ≤ c) && decide (c ≤ 'z')) || (decide ('0' ≤ c) && decide (c ≤ '9'))

/-- Worker for collapseRuns; the flag records whether the previous
character was part of a non-slug run whose '-' was already emitted. -/
def collapseAux : Bool → List Char → List Char
  | _, [] => []
  | inRun, c :: rest =>
    if isSlugChar c then c :: collapseAux false rest
    else if inRun then collapseAux true rest
    else '-' :: collapseAux true rest

/-- slugifyRegex.ReplaceAllString(slug, "-") from asana.go: each
maximal run of non-slug characters becomes a single '-'. -/
def collapseRuns (l : List Char) : List Char := collapseAux false l

/-- Left half of Go strings.Trim(slug, "-"). -/
def trimLeftDashes (l : List Char) : List Char := l.dropWhile (fun c => c == '-')

/-- Go strings.TrimRight(slug, "-"). -/
def trimRightDashes (l : List Char) : List Char :=
  (l.reverse.dropWhile (fun c => c == '-')).reverse

/-- Go strings.Trim(slug, "-"): strip leading and trailing dashes. -/
def trimDashes (l : List Char) : List Char := trimRightDashes (trimLeftDashes l)

/-- maxSlugLen from asana.go. -/
def maxSlugLen : Nat := 40

/-- The slug pipeline of AsanaProvider.GenerateBranchName (asana.go
lines 173-185): lowercase the title, collapse non-alphanumeric runs to
'-', trim dashes, and cap at 40 characters without ending on a
hyphen.  After collapsing, every character is ASCII, so Go's byte
slicing agrees with character slicing. -/
def asanaSlug (title : String) : List Char :=
  if maxSlugLen < (trimDashes (collapseRuns (toLowerStr title).data)).length then
    trimRightDashes ((trimDashes (collapseRuns (toLowerStr title).data)).take maxSlugLen)
  else trimDashes (collapseRuns (toLowerStr title).data)

/-- AsanaProvider.GenerateBranchName (asana.go lines 173-193). -/
def asanaGenerateBranchName (issue : Issue) : String :=
  if asanaSlug issue.title = [] then "task-" ++ issue.id
  else "task-" ++ String.mk (asanaSlug issue.title)

/-- LinearProvider.GenerateBranchName (linear.go lines 222-224). -/
def linearGenerateBranchName (issue : Issue) : String :=
  "linear-" ++ toLowerStr issue.id

/-! ## Workflow diagram generation (internal/workflow)

The visualize code itself is not among the sources at hand; only
visualize_test.go is.  The graph model and the two Mermaid variants
are therefore modelled from the specification, with node and label
conventions taken from the test's expected fragments.  Each diagram
edge renders as exactly one arrow line of the textual output, so the
claims about arrows in the diagram text are stated on the edge
lists. -/

/-- A node of the rendered diagram: a workflow state, a hook
pseudo-state, or the synthetic start/end markers ([*] in Mermaid). -/
inductive DiagramNode
  | startMark
  | endMark
  | state (name : String)
  | hookNode (name : String)
deriving DecidableEq

/-- Whether a node is a hook pseudo-state. -/
def DiagramNode.isHook : DiagramNode → Bool
  | .hookNode _ => true
  | _ => false

/-- The kind of a transition arrow, determining its label: plain,
`: error`, `: timeout:<duration>`, or a choice label. -/
inductive EdgeKind
  | plain
  | error
  | timeout (minutes : Nat)
  | choice (label : String)
deriving DecidableEq

/-- One arrow of the diagram. -/
structure DiagramEdge where
  src : DiagramNode
  dst : DiagramNode
  kind : EdgeKind
deriving DecidableEq

/-- workflow.HookConfig: one configured hook command. -/
structure HookConfig where
  run : String
deriving DecidableEq

/-- Modelled from the spec: a state's configuration — ordered
before/after hooks, success transition, optional error transition,
optional timeout (duration in minutes and target), and choice
branches (label, target). -/
structure StateConfig where
  before : List HookConfig
  after : List HookConfig
  success : Option String
  error : Option String
  timeout : Option (Nat × String)
  choices : List (String × String)
deriving DecidableEq

/-- A terminal state has no outgoing transitions. -/
def StateConfig.isTerminal (c : StateConfig) : Bool :=
  c.success.isNone && c.error.isNone && c.timeout.isNone && c.choices.isEmpty

/-- Modelled from the spec: the compiled workflow definition — the
initial state name and the named states. -/
structure WorkflowConfig where
  initial : String
  states : List (String × StateConfig)
deriving DecidableEq

/-- A valid graph has pairwise-distinct state names and contains its
initial state. -/
def WorkflowConfig.Valid (g : WorkflowConfig) : Prop :=
  (g.states.map Prod.fst).Nodup ∧ g.initial ∈ g.states.map Prod.fst

instance (g : WorkflowConfig) : Decidable g.Valid := by
  unfold WorkflowConfig.Valid
  exact inferInstance

/-- Modelled from the spec: the arrows the full diagram draws for one
state — hook pseudo-states when hooks are configured, one arrow per
transition labeled by its kind, and an exit arrow to the end marker
for terminal states. -/
def stateEdgesFull (n : String) (c : StateConfig) : List DiagramEdge :=
  (if c.before.isEmpty then [] else [⟨.hookNode (n ++ "_before"), .state n, .plain⟩]) ++
  (if c.after.isEmpty then [] else [⟨.state n, .hookNode (n ++ "_hooks"), .plain⟩]) ++
  (match c.success with | some t => [⟨.state n, .state t, .plain⟩] | none => []) ++
  (match c.error with | some t => [⟨.state n, .state t, .error⟩] | none => []) ++
  (match c.timeout with | some (d, t) => [⟨.state n, .state t, .timeout d⟩] | none => []) ++
  c.choices.map (fun ch => ⟨.state n, .state ch.2, .choice ch.1⟩) ++
  (if c.isTerminal then [⟨.state n, .endMark, .plain⟩] else [])

/-- Modelled from the spec: the compact variant omits hook
pseudo-states and error edges but keeps success, timeout, choice and
exit arrows. -/
def stateEdgesCompact (n : String) (c : StateConfig) : List DiagramEdge :=
  (match c.success with | some t => [⟨.state n, .state t, .plain⟩] | none => []) ++
  (match c.timeout with | some (d, t) => [⟨.state n, .state t, .timeout d⟩] | none => []) ++
  c.choices.map (fun ch => ⟨.state n, .state ch.2, .choice ch.1⟩) ++
  (if c.isTerminal then [⟨.state n, .endMark, .plain⟩] else [])

/-- All arrows of the full diagram: the entry arrow from the start
marker to the initial state, then every state's arrows. -/
def diagramEdgesFull (g : WorkflowConfig) : List DiagramEdge :=
  ⟨.startMark, .state g.initial, .plain⟩ ::
    (g.states.map fun p => stateEdgesFull p.1 p.2).flatten

/-- All arrows of the compact diagram. -/
def diagramEdgesCompact (g : WorkflowConfig) : List DiagramEdge :=
  ⟨.startMark, .state g.initial, .plain⟩ ::
    (g.states.map fun p => stateEdgesCompact p.1 p.2).flatten

/-- Mermaid text of one node. -/
def renderNode : DiagramNode → String
  | .startMark => "[*]"
  | .endMark => "[*]"
  | .state n => n
  | .hookNode n => n

/-- Mermaid label suffix of an edge kind. -/
def renderKind : EdgeKind → String
  | .plain => ""
  | .error => " : error"
  | .timeout d => " : timeout:" ++ toString d ++ "m"
  | .choice lbl => " : " ++ lbl

/-- Mermaid text of one arrow. -/
def renderEdge (e : DiagramEdge) : String :=
  renderNode e.src ++ " --> " ++ renderNode e.dst ++ renderKind e.kind

/-- GenerateMermaid, modelled from the spec: the header line followed
by one line per arrow of the full diagram. -/
def GenerateMermaid (g : WorkflowConfig) : List String :=
  "stateDiagram-v2" :: (diagramEdgesFull g).map renderEdge

/-- GenerateMermaidCompact, modelled from the spec. -/
def GenerateMermaidCompact (g : WorkflowConfig) : List String :=
  "stateDiagram-v2" :: (diagramEdgesCompact g).map renderEdge

/-- Modelled from the spec: the default workflow graph —
coding → open_pr → await_review → await_ci → merge → done, error
edges to failed, await_ci with a timeout, and the check_ci_result
choice state fanning out to merge / await_ci / failed. -/
def defaultWorkflowConfig : WorkflowConfig :=
  { initial := "coding"
    states :=
      [("coding", ⟨[], [], some "open_pr", some "failed", none, []⟩),
       ("open_pr", ⟨[], [], some "await_review", some "failed", none, []⟩),
       ("await_review", ⟨[], [], some "await_ci", some "failed", none, []⟩),
       ("await_ci", ⟨[], [], some "check_ci_result", some "failed", some (30, "failed"), []⟩),
       ("check_ci_result", ⟨[], [], none, none, none,
          [("pass", "merge"), ("pending", "await_ci"), ("fail", "failed")]⟩),
       ("merge", ⟨[], [], some "done", some "failed", none, []⟩),
       ("done", ⟨[], [], none, none, none, []⟩),
       ("failed", ⟨[], [], none, none, none, []⟩)] }

/-! ## Path resolution (package paths)

Embedded from the paths package.  The process-wide cache variable
`resolved` becomes an explicit `Option ResolvedPaths` threaded through
each call; the operating-system facts resolve reads (home directory,
whether ~/.erg exists, XDG variables, test mode, the temp directory)
are gathered in a PathEnv record. -/

/-- resolvedPaths: the cached path layout. -/
structure ResolvedPaths where
  configDir : String
  dataDir : String
  stateDir : String
  legacy : Bool
deriving DecidableEq

/-- The operating-system observations path resolution makes.
`userHome` is the os.UserHomeDir result, `origHome` the home captured
at init time, `legacyDirExists` whether ~/.erg exists as a directory,
the xdg fields the respective environment variables (empty = unset),
and `testFallbackDir` the os.MkdirTemp result (`none` = creation
failed). -/
structure PathEnv where
  userHome : Except String String
  origHome : String
  testing : Bool
  legacyDirExists : Bool
  xdgConfig : String
  xdgData : String
  xdgState : String
  testFallbackDir : Option String

/-- filepath.Join for the clean relative components used here. -/
def joinPath (a b : String) : String := a ++ "/" ++ b

/-- resolveNormal (part_001 lines 259-306): legacy ~/.erg if it
exists, else the XDG layout when any XDG variable is set (with
defaults for unset ones), else the legacy layout for fresh installs. -/
def resolveNormal (home : String) (env : PathEnv) : ResolvedPaths :=
  if env.legacyDirExists then
    { configDir := joinPath home ".erg", dataDir := joinPath home ".erg",
      stateDir := joinPath home ".erg", legacy := true }
  else if env.xdgConfig ≠ "" ∨ env.xdgData ≠ "" ∨ env.xdgState ≠ "" then
    { configDir :=
        joinPath (if env.xdgConfig = "" then joinPath home ".config" else env.xdgConfig) "erg",
      dataDir :=
        joinPath (if env.xdgData = "" then joinPath (joinPath home ".local") "share"
                  else env.xdgData) "erg",
      stateDir :=
        joinPath (if env.xdgState = "" then joinPath (joinPath home ".local") "state"
                  else env.xdgState) "erg",
      legacy := false }
  else
    { configDir := joinPath home ".erg", dataDir := joinPath home ".erg",
      stateDir := joinPath home ".erg", legacy := true }

/-- resolveTestFallback (part_001 lines 237-255): paths under the
test temp directory, or normal resolution if its creation failed. -/
def resolveTestFallback (env : PathEnv) : Except String ResolvedPaths :=
  match env.testFallbackDir with
  | some d =>
    .ok { configDir := joinPath (joinPath d "config") "erg",
          dataDir := joinPath (joinPath d "data") "erg",
          stateDir := joinPath (joinPath d "state") "erg", legacy := false }
  | none =>
    match env.userHome with
    | .error e => .error e
    | .ok home => .ok (resolveNormal home env)

/-- The computation resolve performs on a cache miss (part_001 lines
219-231). -/
def resolveOnce (env : PathEnv) : Except String ResolvedPaths :=
  match env.userHome with
  | .error e => .error e
  | .ok home =>
    if env.testing && home == env.origHome then resolveTestFallback env
    else .ok (resolveNormal home env)

/-- resolve (part_001 lines 211-232): return the cached layout when
present, otherwise compute and cache it.  The pair is (call result,
cache after the call). -/
def resolve (cache : Option ResolvedPaths) (env : PathEnv) :
    Except String ResolvedPaths × Option ResolvedPaths :=
  match cache with
  | some r => (.ok r, some r)
  | none =>
    match resolveOnce env with
    | .error e => (.error e, none)
    | .ok r => (.ok r, some r)

/-- ConfigDir (part_001 lines 309-315). -/
def ConfigDir (cache : Option ResolvedPaths) (env : PathEnv) :
    Except String String × Option ResolvedPaths :=
  ((resolve cache env).1.map (fun r => r.configDir), (resolve cache env).2)

/-- DataDir (part_001 lines 318-324). -/
def DataDir (cache : Option ResolvedPaths) (env : PathEnv) :
    Except String String × Option ResolvedPaths :=
  ((resolve cache env).1.map (fun r => r.dataDir), (resolve cache env).2)

/-- StateDir (part_001 lines 327-333). -/
def StateDir (cache : Option ResolvedPaths) (env : PathEnv) :
    Except String String × Option ResolvedPaths :=
  ((resolve cache env).1.map (fun r => r.stateDir), (resolve cache env).2)

/-- IsLegacyLayout (part_001 lines 372-378): legacy flag of the
resolved layout, assuming legacy on resolution error. -/
def IsLegacyLayout (cache : Option ResolvedPaths) (env : PathEnv) :
    Bool × Option ResolvedPaths :=
  (match (resolve cache env).1 with
   | .ok r => r.legacy
   | .error _ => true,
   (resolve cache env).2)

/-- Reset (part_001 lines 381-385): clear the cache. -/
def Reset (_cache : Option ResolvedPaths) : Option ResolvedPaths := none

/-- A concrete environment for the witnesses: an existing ~/.erg
directory, no XDG variables, not under test. -/
def sampleEnv : PathEnv :=
  { userHome := .ok "/home/u", origHome := "/home/u0", testing := false,
    legacyDirExists := true, xdgConfig := "", xdgData := "", xdgState := "",
    testFallbackDir := none }

/-- The layout sampleEnv resolves to: the legacy flat layout. -/
def sampleLegacyPaths : ResolvedPaths :=
  { configDir := "/home/u/.erg", dataDir := "/home/u/.erg",
    stateDir := "/home/u/.erg", legacy := true }

/-! ## Lemmas and claim theorems -/

/-- C1: CheckReviewApproval returns Continue for an undetermined review
decision at any attempt below the maximum attempt threshold (reference
value 120), and returns Stop at or beyond the threshold regardless of
the decision. -/
theorem checkReviewApproval_threshold_spec :
    maxReviewAttempts = 120 ∧
    (∀ attempt : Nat, attempt < maxReviewAttempts →
      CheckReviewApproval .undetermined attempt = .Continue) ∧
    (∀ (d : ReviewDecision) (attempt : Nat), maxReviewAttempts ≤ attempt →
      CheckReviewApproval d attempt = .Stop) := by
  refine ⟨rfl, ?_, ?_⟩
  · intro attempt h
    simp [CheckReviewApproval, Nat.not_le.mpr h]
  · intro d attempt h
    simp [CheckReviewApproval, h]

/-- C1 witness: attempt 1 with an undetermined decision continues,
attempt 120 stops even for an approved decision. -/
theorem checkReviewApproval_threshold_spec_witness :
    CheckReviewApproval .undetermined 1 = .Continue ∧
    CheckReviewApproval .approved 120 = .Stop :=
  ⟨checkReviewApproval_threshold_spec.2.1 1 (by decide),
   checkReviewApproval_threshold_spec.2.2 .approved 120 (by decide)⟩

/-- C2: CheckCIAndMerge stops on CI FAILURE, continues on PENDING, and
on PASSING or an unparseable result delegates to DoMerge, which
returns Proceed when the merge succeeds. -/
theorem checkCIAndMerge_spec :
    ∀ (s : Session) (attempt : Nat) (mergeOk : Bool),
      (CheckCIAndMerge s attempt .failure mergeOk).1 = .Stop ∧
      (CheckCIAndMerge s attempt .pending mergeOk).1 = .Continue ∧
      CheckCIAndMerge s attempt .passing mergeOk = DoMerge s mergeOk ∧
      CheckCIAndMerge s attempt .unparseable mergeOk = DoMerge s mergeOk ∧
      (mergeOk = true →
        (CheckCIAndMerge s attempt .passing mergeOk).1 = .Proceed ∧
        (CheckCIAndMerge s attempt .unparseable mergeOk).1 = .Proceed) := by
  intro s attempt mergeOk
  refine ⟨rfl, rfl, rfl, rfl, ?_⟩
  rintro rfl
  constructor <;> simp [CheckCIAndMerge, DoMerge]

/-- C2 witness: with a passing CI status and a succeeding merge the
check proceeds, exactly as in the first TestCheckCIAndMerge case. -/
theorem checkCIAndMerge_spec_witness :
    (CheckCIAndMerge sampleSession 1 .passing true).1 = .Proceed :=
  ((checkCIAndMerge_spec sampleSession 1 true).2.2.2.2 rfl).1

/-- C3: DoMerge on merge success marks the session merged and proceeds;
on merge error it stops and returns the session unchanged, so an
initially unmerged session stays unmerged. -/
theorem doMerge_spec :
    ∀ s : Session,
      ((DoMerge s true).1 = .Proceed ∧ (DoMerge s true).2.prMerged = true) ∧
      ((DoMerge s false).1 = .Stop ∧ (DoMerge s false).2 = s) ∧
      (s.prMerged = false → (DoMerge s false).2.prMerged = false) := by
  intro s
  refine ⟨⟨?_, ?_⟩, ⟨rfl, rfl⟩, fun h => h⟩ <;> simp [DoMerge]

/-- C3 witness: at a concrete unmerged session the error path leaves
the merged flag false while the success path sets it. -/
theorem doMerge_spec_witness :
    (DoMerge sampleSession false).2.prMerged = false ∧
    (DoMerge sampleSession true).2.prMerged = true :=
  ⟨(doMerge_spec sampleSession).2.2 rfl, ((doMerge_spec sampleSession).1).2⟩

/-- C4: for a session with zero comments addressed, a failed PR-comment
query makes CheckAndAddressComments return Proceed (fail-open), and no
query result whatsoever makes it return Stop. -/
theorem checkAndAddressComments_failOpen_spec :
    ∀ (s : Session) (attempt : Nat),
      s.prCommentsAddressedCount = 0 →
      (CheckAndAddressComments s attempt none = .Proceed ∧
       ∀ query : Option Nat, CheckAndAddressComments s attempt query ≠ .Stop) := by
  intro s attempt _
  refine ⟨rfl, ?_⟩
  intro query
  cases query with
  | none => simp [CheckAndAddressComments]
  | some total =>
    simp only [CheckAndAddressComments]
    split <;> simp

/-- C4 witness: the concrete zero-addressed session proceeds when the
comment query fails. -/
theorem checkAndAddressComments_failOpen_spec_witness :
    CheckAndAddressComments sampleSession 1 none = .Proceed :=
  (checkAndAddressComments_failOpen_spec sampleSession 1 rfl).1

/-- C5: with an empty FilterConfig.Label both providers return every
open item of the response in order; with a non-empty label they return
exactly the items bearing a case-insensitively matching tag/label,
still in response order (the result is a sublist of the response). -/
theorem fetchIssues_label_filter_spec :
    ∀ (pat : String) (f : FilterConfig) (resp : List AsanaTask)
      (key : String) (nodes : List LinearAPIIssue),
      pat ≠ "" → f.project ≠ "" → key ≠ "" → f.team ≠ "" →
      (asanaFetchIssues pat f resp = .ok ((asanaFilterTasks resp f.label).map asanaTaskToIssue) ∧
       (f.label = "" → asanaFilterTasks resp f.label = resp) ∧
       (f.label ≠ "" → ∀ task,
         task ∈ asanaFilterTasks resp f.label ↔
           task ∈ resp ∧ task.tags.any (fun tag => eqFold tag.name f.label) = true) ∧
       (asanaFilterTasks resp f.label).Sublist resp) ∧
      (linearFetchIssues key f nodes =
         .ok ((linearServerNodes nodes f.label).map linearIssueToIssue) ∧
       (f.label = "" → ∀ i,
         i ∈ linearServerNodes nodes f.label ↔ i ∈ nodes ∧ linearOpen i = true) ∧
       (f.label ≠ "" → ∀ i,
         i ∈ linearServerNodes nodes f.label ↔
           i ∈ nodes ∧ (linearOpen i && i.labels.any (fun nm => eqFold nm f.label)) = true) ∧
       (linearServerNodes nodes f.label).Sublist nodes) := by
  intro pat f resp key nodes hpat hproj hkey hteam
  refine ⟨⟨?_, ?_, ?_, ?_⟩, ?_, ?_, ?_, ?_⟩
  · simp [asanaFetchIssues, hpat, hproj]
  · intro hlbl
    simp [asanaFilterTasks, hlbl]
  · intro hlbl task
    simp [asanaFilterTasks, hlbl, List.mem_filter]
  · unfold asanaFilterTasks
    split
    · exact List.Sublist.refl resp
    · exact List.filter_sublist resp
  · simp [linearFetchIssues, hkey, hteam]
  · intro hlbl i
    simp [linearServerNodes, hlbl, List.mem_filter]
  · intro hlbl i
    simp [linearServerNodes, hlbl, List.mem_filter]
  · unfold linearServerNodes
    split
    · exact List.filter_sublist nodes
    · exact List.filter_sublist nodes

/-- C5 witness: the configured label "queued" matches the stored tag
"Queued" case-insensitively, and the untagged task is dropped. -/
theorem fetchIssues_label_filter_spec_witness :
    sampleQueuedTask ∈ asanaFilterTasks [sampleQueuedTask, sampleUntaggedTask] "queued" ∧
    ¬ sampleUntaggedTask ∈ asanaFilterTasks [sampleQueuedTask, sampleUntaggedTask] "queued" := by
  have h := fetchIssues_label_filter_spec "pat" ⟨"queued", "12345", "team-1"⟩
    [sampleQueuedTask, sampleUntaggedTask] "key" [] (by decide) (by decide) (by decide) (by decide)
  constructor
  · exact (h.1.2.2.1 (by decide) sampleQueuedTask).mpr (by decide)
  · intro hmem
    exact absurd ((h.1.2.2.1 (by decide) sampleUntaggedTask).mp hmem).2 (by decide)

/-- C9: with the provider's credential environment variable unset,
IsConfigured is false and FetchIssues returns an error; with the
credential set but the Asana project GID / Linear team ID empty,
FetchIssues also returns an error. -/
theorem provider_credential_guard_spec :
    (∀ (f : FilterConfig) (resp : List AsanaTask),
      asanaFetchIssues "" f resp = .error "ASANA_PAT environment variable not set") ∧
    (∀ hasProject : Bool, asanaIsConfigured "" hasProject = false) ∧
    (∀ (pat : String) (f : FilterConfig) (resp : List AsanaTask),
      pat ≠ "" → f.project = "" →
      asanaFetchIssues pat f resp =
        .error "Asana project GID not configured for this repository") ∧
    (∀ (f : FilterConfig) (all : List LinearAPIIssue),
      linearFetchIssues "" f all = .error "LINEAR_API_KEY environment variable not set") ∧
    (∀ hasTeam : Bool, linearIsConfigured "" hasTeam = false) ∧
    (∀ (key : String) (f : FilterConfig) (all : List LinearAPIIssue),
      key ≠ "" → f.team = "" →
      linearFetchIssues key f all =
        .error "Linear team ID not configured for this repository") := by
  refine ⟨?_, ?_, ?_, ?_, ?_, ?_⟩
  · intro f resp
    simp [asanaFetchIssues]
  · intro hasProject
    simp [asanaIsConfigured]
  · intro pat f resp hpat hproj
    simp [asanaFetchIssues, hpat, hproj]
  · intro f all
    simp [linearFetchIssues]
  · intro hasTeam
    simp [linearIsConfigured]
  · intro key f all hkey hteam
    simp [linearFetchIssues, hkey, hteam]

/-- C9 witness: concrete unset-credential and missing-identifier
calls all fail as stated. -/
theorem provider_credential_guard_spec_witness :
    asanaFetchIssues "" ⟨"", "12345", ""⟩ [] =
      .error "ASANA_PAT environment variable not set" ∧
    asanaFetchIssues "pat" ⟨"", "", ""⟩ [] =
      .error "Asana project GID not configured for this repository" ∧
    linearFetchIssues "key" ⟨"", "", ""⟩ [] =
      .error "Linear team ID not configured for this repository" :=
  ⟨provider_credential_guard_spec.1 ⟨"", "12345", ""⟩ [],
   provider_credential_guard_spec.2.2.1 "pat" ⟨"", "", ""⟩ [] (by decide) rfl,
   provider_credential_guard_spec.2.2.2.2.2 "key" ⟨"", "", ""⟩ [] (by decide) rfl⟩

/-- The head of a dropWhile result never satisfies the predicate. -/
theorem head?_dropWhile_not {α : Type} (p : α → Bool) (l : List α) :
    ∀ a, (l.dropWhile p).head? = some a → p a = false := by
  induction l with
  | nil => intro a h; simp at h
  | cons x xs ih =>
    intro a h
    rw [List.dropWhile_cons] at h
    by_cases hx : p x = true
    · rw [if_pos hx] at h
      exact ih a h
    · rw [if_neg hx] at h
      simp only [List.head?_cons, Option.some.injEq] at h
      subst h
      simpa using hx

/-- trimRightDashes never leaves a trailing dash. -/
theorem trimRightDashes_getLast? (l : List Char) :
    (trimRightDashes l).getLast? ≠ some '-' := by
  intro h
  unfold trimRightDashes at h
  rw [List.getLast?_reverse] at h
  have := head?_dropWhile_not (fun c => c == '-') l.reverse '-' h
  simp at this

/-- The slug produced by asanaSlug never ends in a dash. -/
theorem asanaSlug_getLast? (title : String) :
    (asanaSlug title).getLast? ≠ some '-' := by
  unfold asanaSlug trimDashes
  split
  · exact trimRightDashes_getLast? _
  · exact trimRightDashes_getLast? _

/-- getLast? commutes with map. -/
theorem getLast?_map_lowerChar (l : List Char) :
    (l.map lowerChar).getLast? = l.getLast?.map lowerChar := by
  induction l with
  | nil => rfl
  | cons x xs ih =>
    cases xs with
    | nil => rfl
    | cons y ys => simpa using ih

/-- ASCII case folding maps no character to '-' except '-' itself. -/
theorem lowerChar_eq_dash {c : Char} (h : lowerChar c = '-') : c = '-' := by
  unfold lowerChar at h
  split at h <;> first
    | exact absurd h (by decide)
    | exact h

/-- C6 counterexample: for an issue whose title and ID are both empty,
AsanaProvider.GenerateBranchName returns "task-", which ends in the
separator '-' — the claim as stated fails for this issue. -/
theorem generateBranchName_counterexample :
    asanaGenerateBranchName { id := "", title := "", body := "", url := "", source := .asana }
      = "task-" ∧
    (asanaGenerateBranchName
        { id := "", title := "", body := "", url := "", source := .asana }).data.getLast?
      = some '-' := by
  constructor <;> rfl

/-- C6 (amended): provided the raw issue ID is nonempty and does not
finish with the separator '-', GenerateBranchName never returns a
string that has the separator as its last character; whenever the slug
derived from the title is empty, the Asana provider falls back to the
ID-based name "task-" ++ ID (the Linear name is always ID-based). -/
theorem generateBranchName_spec :
    ∀ issue : Issue,
      issue.id ≠ "" →
      issue.id.data.getLast? ≠ some '-' →
      ((asanaGenerateBranchName issue).data.getLast? ≠ some '-' ∧
       (asanaSlug issue.title = [] → asanaGenerateBranchName issue = "task-" ++ issue.id) ∧
       (linearGenerateBranchName issue).data.getLast? ≠ some '-') := by
  intro issue hid hlast
  have hdata : issue.id.data ≠ [] := by
    intro h
    exact hid (congrArg String.mk h)
  refine ⟨?_, ?_, ?_⟩
  · unfold asanaGenerateBranchName
    split
    · show ("task-" ++ issue.id).data.getLast? ≠ some '-'
      have : ("task-" ++ issue.id).data = "task-".data ++ issue.id.data := rfl
      rw [this, List.getLast?_append_of_ne_nil _ hdata]
      exact hlast
    · show ("task-" ++ String.mk (asanaSlug issue.title)).data.getLast? ≠ some '-'
      have heq : ("task-" ++ String.mk (asanaSlug issue.title)).data
          = "task-".data ++ asanaSlug issue.title := rfl
      rw [heq]
      rename_i hne
      rw [List.getLast?_append_of_ne_nil _ hne]
      exact asanaSlug_getLast? issue.title
  · intro hslug
    unfold asanaGenerateBranchName
    rw [if_pos hslug]
  · unfold linearGenerateBranchName
    have heq : ("linear-" ++ toLowerStr issue.id).data
        = "linear-".data ++ issue.id.data.map lowerChar := rfl
    rw [heq]
    have hmapne : issue.id.data.map lowerChar ≠ [] := by
      intro h
      exact hdata (List.map_eq_nil_iff.mp h)
    rw [List.getLast?_append_of_ne_nil _ hmapne, getLast?_map_lowerChar]
    intro h
    rcases hlow : issue.id.data.getLast? with _ | c
    · rw [hlow] at h; exact Option.noConfusion h
    · rw [hlow] at h
      have hc : lowerChar c = '-' := Option.some.inj h
      exact hlast (by rw [hlow, lowerChar_eq_dash hc])

/-- C6 witness: a realistic issue — long mixed title, alphanumeric
ID — yields separator-free names, and an issue with a symbol-only
title falls back to the ID-based name. -/
theorem generateBranchName_spec_witness :
    (asanaGenerateBranchName
        { id := "1201", title := "Fix Bug!!", body := "", url := "", source := .asana }).data.getLast?
      ≠ some '-' ∧
    asanaGenerateBranchName
        { id := "1202", title := "???", body := "", url := "", source := .asana }
      = "task-1202" ∧
    (linearGenerateBranchName
        { id := "ENG-123", title := "", body := "", url := "", source := .linear }).data.getLast?
      ≠ some '-' := by
  refine ⟨(generateBranchName_spec _ (by decide) (by decide)).1,
          (generateBranchName_spec
            { id := "1202", title := "???", body := "", url := "", source := .asana }
            (by decide) (by decide)).2.1 (by decide),
          (generateBranchName_spec
            { id := "ENG-123", title := "", body := "", url := "", source := .linear }
            (by decide) (by decide)).2.2⟩

/-- Every arrow a state contributes starts at that state or at its
before-hook pseudo-state — never at the start marker. -/
theorem stateEdgesFull_src_ne_start (n : String) (c : StateConfig) (e : DiagramEdge)
    (he : e ∈ stateEdgesFull n c) : e.src ≠ .startMark := by
  unfold stateEdgesFull at he
  simp only [List.mem_append] at he
  rcases he with ((((((h | h) | h) | h) | h) | h) | h)
  · split at h <;> simp_all
  · split at h <;> simp_all
  · rcases hs : c.success with _ | t <;> rw [hs] at h <;> simp_all
  · rcases hs : c.error with _ | t <;> rw [hs] at h <;> simp_all
  · rcases hs : c.timeout with _ | ⟨d, t⟩ <;> rw [hs] at h <;> simp_all
  · simp only [List.mem_map] at h
    rcases h with ⟨ch, _, rfl⟩
    simp
  · split at h <;> simp_all

/-- How many exit arrows one state contributes to a given terminal:
one if it is that terminal state, none otherwise. -/
theorem count_exit_stateEdgesFull (n t : String) (c : StateConfig) :
    (stateEdgesFull n c).count ⟨.state t, .endMark, .plain⟩ =
      if n = t ∧ c.isTerminal = true then 1 else 0 := by
  unfold stateEdgesFull
  simp only [List.count_append]
  have h1 : (if c.before.isEmpty then ([] : List DiagramEdge)
      else [⟨.hookNode (n ++ "_before"), .state n, .plain⟩]).count
        (⟨.state t, .endMark, .plain⟩ : DiagramEdge) = 0 := by
    split <;> simp [List.count_cons, List.count_nil]
  have h2 : (if c.after.isEmpty then ([] : List DiagramEdge)
      else [⟨.state n, .hookNode (n ++ "_hooks"), .plain⟩]).count
        (⟨.state t, .endMark, .plain⟩ : DiagramEdge) = 0 := by
    split <;> simp [List.count_cons, List.count_nil]
  have h3 : (match c.success with
      | some tt => [(⟨.state n, .state tt, .plain⟩ : DiagramEdge)]
      | none => []).count (⟨.state t, .endMark, .plain⟩ : DiagramEdge) = 0 := by
    rcases c.success with _ | tt <;> simp [List.count_cons, List.count_nil]
  have h4 : (match c.error with
      | some tt => [(⟨.state n, .state tt, .error⟩ : DiagramEdge)]
      | none => []).count (⟨.state t, .endMark, .plain⟩ : DiagramEdge) = 0 := by
    rcases c.error with _ | tt <;> simp [List.count_cons, List.count_nil]
  have h5 : (match c.timeout with
      | some (d, tt) => [(⟨.state n, .state tt, .timeout d⟩ : DiagramEdge)]
      | none => []).count (⟨.state t, .endMark, .plain⟩ : DiagramEdge) = 0 := by
    rcases c.timeout with _ | ⟨d, tt⟩ <;> simp [List.count_cons, List.count_nil]
  have h6 : (c.choices.map fun ch =>
      (⟨.state n, .state ch.2, .choice ch.1⟩ : DiagramEdge)).count
        (⟨.state t, .endMark, .plain⟩ : DiagramEdge) = 0 := by
    rw [List.count_eq_zero]
    simp
  have h7 : (if c.isTerminal then [(⟨.state n, .endMark, .plain⟩ : DiagramEdge)]
      else []).count (⟨.state t, .endMark, .plain⟩ : DiagramEdge) =
        if n = t ∧ c.isTerminal = true then 1 else 0 := by
    by_cases hterm : c.isTerminal = true
    · rw [if_pos hterm]
      by_cases hnt : n = t
      · subst hnt
        simp [hterm, List.count_cons]
      · rw [if_neg (by simp [hnt])]
        simp [List.count_cons, List.count_nil, hnt]
    · rw [if_neg hterm, if_neg (by simp [hterm])]
      simp
  rw [h1, h2, h3, h4, h5, h6, h7]
  omega

/-- A graph region containing no state named t contributes no exit
arrow for t. -/
theorem count_exit_flatten_zero (states : List (String × StateConfig)) (t : String)
    (h : t ∉ states.map Prod.fst) :
    ((states.map fun p => stateEdgesFull p.1 p.2).flatten).count
      ⟨.state t, .endMark, .plain⟩ = 0 := by
  induction states with
  | nil => rfl
  | cons p ps ih =>
    simp only [List.map_cons, List.flatten_cons, List.count_append]
    have hp : p.1 ≠ t := by
      intro hpt
      exact h (by simp [hpt])
    rw [count_exit_stateEdgesFull, if_neg (by simp [hp]), ih (by simp_all)]

/-- A graph region with distinct state names containing the terminal
state t contributes exactly one exit arrow for t. -/
theorem count_exit_flatten_one (states : List (String × StateConfig)) (t : String)
    (ct : StateConfig) (hnd : (states.map Prod.fst).Nodup) (hmem : (t, ct) ∈ states)
    (hterm : ct.isTerminal = true) :
    ((states.map fun p => stateEdgesFull p.1 p.2).flatten).count
      ⟨.state t, .endMark, .plain⟩ = 1 := by
  induction states with
  | nil => cases hmem
  | cons p ps ih =>
    simp only [List.map_cons, List.flatten_cons, List.count_append]
    have hps : (ps.map Prod.fst).Nodup := (List.nodup_cons.mp (by simpa using hnd)).2
    have hp1 : p.1 ∉ ps.map Prod.fst := (List.nodup_cons.mp (by simpa using hnd)).1
    rcases List.mem_cons.mp hmem with heq | hmem'
    · subst heq
      rw [count_exit_stateEdgesFull, if_pos ⟨rfl, hterm⟩]
      rw [count_exit_flatten_zero ps t hp1]
    · have hpt : p.1 ≠ t := by
        intro hpt
        have htps : t ∈ ps.map Prod.fst := List.mem_map.mpr ⟨(t, ct), hmem', rfl⟩
        rw [hpt] at hp1
        exact hp1 htps
      rw [count_exit_stateEdgesFull, if_neg (by simp [hpt])]
      simpa using ih hps hmem'

/-- C7: for every valid workflow graph, the diagram contains exactly
one entry arrow out of the synthetic start marker, that arrow enters
the initial state, and each terminal state has exactly one exit arrow
into the synthetic end marker. -/
theorem generateMermaid_entry_exit_spec :
    ∀ g : WorkflowConfig, g.Valid →
      ((diagramEdgesFull g).countP (fun e => e.src == .startMark) = 1 ∧
       (⟨.startMark, .state g.initial, .plain⟩ : DiagramEdge) ∈ diagramEdgesFull g ∧
       ∀ (t : String) (ct : StateConfig), (t, ct) ∈ g.states → ct.isTerminal = true →
         (diagramEdgesFull g).count ⟨.state t, .endMark, .plain⟩ = 1) := by
  intro g hvalid
  refine ⟨?_, ?_, ?_⟩
  · unfold diagramEdgesFull
    rw [List.countP_cons]
    have hz : ((g.states.map fun p => stateEdgesFull p.1 p.2).flatten).countP
        (fun e => e.src == .startMark) = 0 := by
      rw [List.countP_eq_zero]
      intro e he
      simp only [List.mem_flatten, List.mem_map] at he
      rcases he with ⟨es, ⟨p, _, rfl⟩, hmem⟩
      simpa using stateEdgesFull_src_ne_start p.1 p.2 e hmem
    simp [hz]
  · unfold diagramEdgesFull
    exact List.mem_cons_self _ _
  · intro t ct hmem hterm
    unfold diagramEdgesFull
    rw [List.count_cons]
    have hhead : ((⟨.startMark, .state g.initial, .plain⟩ : DiagramEdge)
        == (⟨.state t, .endMark, .plain⟩ : DiagramEdge)) = false := by
      simp
    rw [hhead]
    simp only [Bool.false_eq_true, if_false, Nat.add_zero]
    exact count_exit_flatten_one g.states t ct hvalid.1 hmem hterm

/-- C7 witness: in the default graph's diagram the start marker has
exactly one outgoing arrow and each of done and failed has exactly one
arrow to the end marker. -/
theorem generateMermaid_entry_exit_spec_witness :
    (diagramEdgesFull defaultWorkflowConfig).countP (fun e => e.src == .startMark) = 1 ∧
    (diagramEdgesFull defaultWorkflowConfig).count ⟨.state "done", .endMark, .plain⟩ = 1 ∧
    (diagramEdgesFull defaultWorkflowConfig).count ⟨.state "failed", .endMark, .plain⟩ = 1 :=
  ⟨(generateMermaid_entry_exit_spec defaultWorkflowConfig (by decide)).1,
   (generateMermaid_entry_exit_spec defaultWorkflowConfig (by decide)).2.2
     "done" ⟨[], [], none, none, none, []⟩ (by decide) (by decide),
   (generateMermaid_entry_exit_spec defaultWorkflowConfig (by decide)).2.2
     "failed" ⟨[], [], none, none, none, []⟩ (by decide) (by decide)⟩

/-- C8: the compact diagram never contains a hook pseudo-state node or
an error edge, yet contains every timeout transition and every choice
branch of the graph. -/
theorem generateMermaidCompact_spec :
    ∀ g : WorkflowConfig,
      (∀ e ∈ diagramEdgesCompact g,
        e.src.isHook = false ∧ e.dst.isHook = false ∧ e.kind ≠ .error) ∧
      (∀ (n : String) (c : StateConfig), (n, c) ∈ g.states →
        (∀ (d : Nat) (tgt : String), c.timeout = some (d, tgt) →
          (⟨.state n, .state tgt, .timeout d⟩ : DiagramEdge) ∈ diagramEdgesCompact g) ∧
        (∀ (lbl tgt : String), (lbl, tgt) ∈ c.choices →
          (⟨.state n, .state tgt, .choice lbl⟩ : DiagramEdge) ∈ diagramEdgesCompact g)) := by
  intro g
  constructor
  · intro e he
    unfold diagramEdgesCompact at he
    rcases List.mem_cons.mp he with rfl | he'
    · refine ⟨rfl, rfl, by simp⟩
    · simp only [List.mem_flatten, List.mem_map] at he'
      rcases he' with ⟨es, ⟨p, _, rfl⟩, hmem⟩
      unfold stateEdgesCompact at hmem
      simp only [List.mem_append] at hmem
      rcases hmem with (((h | h) | h) | h)
      · rcases hs : p.2.success with _ | tt <;> rw [hs] at h <;> simp_all [DiagramNode.isHook]
      · rcases hs : p.2.timeout with _ | ⟨d, tt⟩ <;> rw [hs] at h <;> simp_all [DiagramNode.isHook]
      · simp only [List.mem_map] at h
        rcases h with ⟨ch, _, rfl⟩
        exact ⟨rfl, rfl, by simp⟩
      · split at h <;> simp_all [DiagramNode.isHook]
  · intro n c hmem
    have hbase : stateEdgesCompact n c ⊆ diagramEdgesCompact g := by
      intro e he
      unfold diagramEdgesCompact
      refine List.mem_cons_of_mem _ ?_
      simp only [List.mem_flatten, List.mem_map]
      exact ⟨stateEdgesCompact n c, ⟨(n, c), hmem, rfl⟩, he⟩
    constructor
    · intro d tgt htime
      refine hbase ?_
      unfold stateEdgesCompact
      simp only [List.mem_append, htime]
      left; left; right
      simp
    · intro lbl tgt hch
      refine hbase ?_
      unfold stateEdgesCompact
      simp only [List.mem_append]
      left; right
      exact List.mem_map.mpr ⟨(lbl, tgt), hch, rfl⟩

/-- C8 witness: in the default graph's compact diagram every edge is
hook-free and error-free, the await_ci timeout arrow survives, and the
check_ci_result choice arrows survive. -/
theorem generateMermaidCompact_spec_witness :
    ((⟨.state "await_ci", .state "failed", .timeout 30⟩ : DiagramEdge)
       ∈ diagramEdgesCompact defaultWorkflowConfig) ∧
    ((⟨.state "check_ci_result", .state "merge", .choice "pass"⟩ : DiagramEdge)
       ∈ diagramEdgesCompact defaultWorkflowConfig) ∧
    ((⟨.state "check_ci_result", .state "merge", .choice "pass"⟩ : DiagramEdge).kind
       ≠ .error) :=
  ⟨((generateMermaidCompact_spec defaultWorkflowConfig).2 "await_ci"
      ⟨[], [], some "check_ci_result", some "failed", some (30, "failed"), []⟩
      (by decide)).1 30 "failed" rfl,
   ((generateMermaidCompact_spec defaultWorkflowConfig).2 "check_ci_result"
      ⟨[], [], none, none, none,
        [("pass", "merge"), ("pending", "await_ci"), ("fail", "failed")]⟩
      (by decide)).2 "pass" "merge" (by decide),
   ((generateMermaidCompact_spec defaultWorkflowConfig).1
      ⟨.state "check_ci_result", .state "merge", .choice "pass"⟩
      (((generateMermaidCompact_spec defaultWorkflowConfig).2 "check_ci_result"
        ⟨[], [], none, none, none,
          [("pass", "merge"), ("pending", "await_ci"), ("fail", "failed")]⟩
        (by decide)).2 "pass" "merge" (by decide))).2.2⟩

/-- Whenever resolution selects the legacy layout, all three
directories coincide. -/
theorem paths_legacy_dirs_eq (env : PathEnv) (r : ResolvedPaths)
    (hres : resolveOnce env = .ok r) (hleg : r.legacy = true) :
    r.configDir = r.dataDir ∧ r.dataDir = r.stateDir := by
  have hnormal : ∀ h : String, resolveNormal h env = r →
      r.configDir = r.dataDir ∧ r.dataDir = r.stateDir := by
    intro h hr
    unfold resolveNormal at hr
    split at hr
    · rw [← hr]
      exact ⟨rfl, rfl⟩
    · split at hr
      · rw [← hr] at hleg
        cases hleg
      · rw [← hr]
        exact ⟨rfl, rfl⟩
  rcases henv : env.userHome with e | home
  · simp [resolveOnce, henv] at hres
  · by_cases htest : (env.testing && home == env.origHome) = true
    · rcases hfb : env.testFallbackDir with _ | d
      · simp [resolveOnce, resolveTestFallback, henv, htest, hfb] at hres
        exact hnormal home hres
      · simp [resolveOnce, resolveTestFallback, henv, htest, hfb] at hres
        rw [← hres] at hleg
        cases hleg
    · simp [resolveOnce, henv, htest] at hres
      exact hnormal home hres

/-- C10: path resolution is computed once and cached — after a first
successful call every later ConfigDir/DataDir/StateDir call returns
the first call's directories (whatever the environment then looks
like) until Reset clears the cache and resolution reruns; and
whenever resolution selects the legacy layout, ConfigDir, DataDir and
StateDir all name the same directory. -/
theorem paths_cache_legacy_spec :
    (∀ (env : PathEnv) (r : ResolvedPaths) (env2 : PathEnv),
      resolve none env = (.ok r, some r) →
      (ConfigDir (some r) env2 = (.ok r.configDir, some r) ∧
       DataDir (some r) env2 = (.ok r.dataDir, some r) ∧
       StateDir (some r) env2 = (.ok r.stateDir, some r) ∧
       Reset (some r) = none ∧
       resolve (Reset (some r)) env = (.ok r, some r))) ∧
    (∀ (env : PathEnv) (r : ResolvedPaths),
      resolveOnce env = .ok r → r.legacy = true →
      r.configDir = r.dataDir ∧ r.dataDir = r.stateDir) ∧
    (∀ env : PathEnv,
      (IsLegacyLayout none env).1 = true →
      (ConfigDir none env).1 = (DataDir none env).1 ∧
      (DataDir none env).1 = (StateDir none env).1) := by
  refine ⟨?_, ?_, ?_⟩
  · intro env r env2 hfirst
    exact ⟨rfl, rfl, rfl, rfl, hfirst⟩
  · intro env r hres hleg
    exact paths_legacy_dirs_eq env r hres hleg
  · intro env hleg
    unfold IsLegacyLayout at hleg
    unfold ConfigDir DataDir StateDir
    rcases hres : (resolve none env).1 with e | r
    · exact ⟨rfl, rfl⟩
    · have hlegr : r.legacy = true := by
        rw [hres] at hleg
        exact hleg
      have hok : resolveOnce env = .ok r := by
        rcases ho : resolveOnce env with e2 | r2
        · simp [resolve, ho] at hres
        · simp [resolve, ho] at hres
          rw [hres]
      have hdirs := paths_legacy_dirs_eq env r hok hlegr
      exact ⟨by simp [Except.map, hdirs.1], by simp [Except.map, hdirs.2]⟩

/-- C10 witness: under the concrete legacy environment the cached
resolution is returned unchanged and all three directory accessors
agree. -/
theorem paths_cache_legacy_spec_witness :
    ConfigDir (some sampleLegacyPaths) sampleEnv
      = (.ok sampleLegacyPaths.configDir, some sampleLegacyPaths) ∧
    (sampleLegacyPaths.configDir = sampleLegacyPaths.dataDir ∧
     sampleLegacyPaths.dataDir = sampleLegacyPaths.stateDir) ∧
    ((ConfigDir none sampleEnv).1 = (DataDir none sampleEnv).1 ∧
     (DataDir none sampleEnv).1 = (StateDir none sampleEnv).1) :=
  ⟨(paths_cache_legacy_spec.1 sampleEnv sampleLegacyPaths sampleEnv rfl).1,
   paths_cache_legacy_spec.2.1 sampleEnv sampleLegacyPaths rfl rfl,
   paths_cache_legacy_spec.2.2 sampleEnv rfl⟩

end Erg
